import Mathlib

/-!  A verification development for `generate_dashboard.py` (kindleboard).

Each Python function of the script is embedded as a Lean function.  External
effects — HTTP requests, the remote battery read over ssh, image-library
calls, font metrics — are passed in as explicit arguments; an `Except String`
value stands for a call that may raise a Python exception (`.error msg` is a
raised exception carrying its message).  Pixel coordinates are `Int`,
`Int.fdiv` models Python's floor division `//`. -/

namespace Kindleboard

/-- Canvas width (`WIDTH = 1448` in the script). -/
def WIDTH : Int := 1448

/-- Canvas height (`HEIGHT = 1072` in the script). -/
def HEIGHT : Int := 1072

/-- One drawing primitive issued against the grayscale canvas.
`rect` is `draw.rectangle`, `rrect` is `draw.rounded_rectangle`,
`text` is `draw.text` (position, string, fill), `line` is `draw.line`,
`paste` is `img.paste`, and `iconCall` marks a call to
`draw_icon_with_text` (whose own expansion is modelled separately). -/
inductive DrawOp where
  | rect (x0 y0 x1 y1 : Int) (fill : Int)
  | rrect (x0 y0 x1 y1 radius fill outline : Int)
  | text (x y : Int) (s : String) (fill : Int)
  | line (x0 y0 x1 y1 fill lineWidth : Int)
  | paste (x y : Int)
  | iconCall (x y : Int) (label : String)
  deriving DecidableEq, Repr

/-- Python `str.strip()`: drop whitespace from both ends.  (Defined over the
character list so that concrete instances reduce; `Char.isWhitespace` covers
the ASCII whitespace Python strips.) -/
def pyStrip (s : String) : String :=
  ⟨(((s.toList.dropWhile Char.isWhitespace).reverse).dropWhile Char.isWhitespace).reverse⟩

/-- Python slicing `s[:n]`: the first `n` characters. -/
def pySlice (s : String) (n : Nat) : String :=
  ⟨s.toList.take n⟩

/-- Python `s.replace("\n", " ")` (single-character pattern and
replacement, so a character map is exact). -/
def pyReplaceNl (s : String) : String :=
  ⟨s.toList.map (fun c => if c = '\n' then ' ' else c)⟩

/-- An active Todoist task as consumed by the renderer: its `content` string
and the optional `due.date` string (`t["due"]["date"]`). -/
structure Task where
  content : String
  due : Option String
  deriving DecidableEq, Repr

/-- A completed Todoist item from the sync `completed/get_all` endpoint.
It carries a `content` string and a completion timestamp field
(`completed_at`), which the script never reads. -/
structure CompletedItem where
  content : String
  completed_at : Option String
  deriving DecidableEq, Repr

/-- Outcome of running `fetch_todoist`: the process may exit (`sys.exit`),
an exception may propagate out of the function, or it returns normally. -/
inductive TodoistResult where
  | exited (code : Nat)
  | raised (msg : String)
  | ok (tasks : List Task) (done : List CompletedItem)
  deriving DecidableEq, Repr

/-- `fetch_todoist` (lines 31–38).  `token` is `TODOIST_TOKEN`;
`tasksResp` is the outcome of `requests.get(... /tasks ...).json()` and
`doneResp` of `requests.get(... completed/get_all ...).json().get("items", [])`
— either a raised exception or the decoded value.  With no token the process
exits with code 1; a raised request/decode error propagates (there is no
try/except); otherwise the active list is returned unfiltered together with
the first 5 completed items (`done[:5]`). -/
def fetch_todoist (token : Option String)
    (tasksResp : Except String (List Task))
    (doneResp : Except String (List CompletedItem)) : TodoistResult :=
  match token with
  | none => .exited 1
  | some _ =>
    match tasksResp with
    | .error e => .raised e
    | .ok tasks =>
      match doneResp with
      | .error e => .raised e
      | .ok done => .ok tasks (done.take 5)

/-- `fetch_battery` (lines 40–49).  `out` is the outcome of the
`subprocess.check_output(["ssh", ...])` call followed by `.decode()`:
`.ok s` is the decoded output, `.error e` any raised exception (timeout,
connection failure, non-zero exit, malformed output).  The body strips the
output; the `except Exception` clause turns every exception into `"N/A"`. -/
def fetch_battery (out : Except String String) : String :=
  match out with
  | .ok s => pyStrip s
  | .error _ => "N/A"

/-- The weather `condition` sub-object of the weather API response. -/
structure WeatherCondition where
  text : Option String
  icon : Option String
  deriving DecidableEq, Repr

/-- The `current` sub-object of the weather API response.  `temp_c` is
modelled as an integer (the script rounds the float to an int anyway). -/
structure WeatherCurrent where
  condition : Option WeatherCondition
  temp_c : Option Int
  humidity : Option Nat
  deriving DecidableEq, Repr

/-- The decoded JSON body of the weather API response; only the presence of
the `"current"` field matters to the script. -/
structure WeatherJson where
  current : Option WeatherCurrent
  deriving DecidableEq, Repr

/-- An HTTP response from the weather API: its status code and the outcome
of `resp.json()` (which may itself raise on a malformed body). -/
structure WeatherResp where
  status : Nat
  body : Except String WeatherJson
  deriving Repr

/-- The dictionary `fetch_weather` returns on success. -/
structure Weather where
  temp : Int
  condition : String
  humidity : Nat
  icon : Option String
  deriving DecidableEq, Repr

/-- `fetch_weather` (lines 51–98).  `apiKey` is `WEATHER_API_KEY`; `resp` is
the outcome of `requests.get(url, timeout=10)`; `iconDl` the outcome of the
icon download.  Missing key → `none`; a raised request error is caught by the
outer `except` → `none`; non-200 status → `none`; body decode failure →
caught → `none`; missing `"current"` field → `none`.  Otherwise the weather
dict is assembled with `.get` defaults (`"Unknown"`, `0`), and the icon path
is `none` exactly when the icon download raised. -/
def fetch_weather (apiKey : Option String) (resp : Except String WeatherResp)
    (iconDl : Except String Unit) : Option Weather :=
  match apiKey with
  | none => none
  | some _ =>
    match resp with
    | .error _ => none
    | .ok r =>
      if r.status ≠ 200 then none
      else
        match r.body with
        | .error _ => none
        | .ok data =>
          match data.current with
          | none => none
          | some cur =>
            some { temp := cur.temp_c.getD 0
                   condition := (cur.condition.bind (fun c => c.text)).getD "Unknown"
                   humidity := cur.humidity.getD 0
                   icon := match iconDl with
                           | .ok _ => some "/tmp/weather.png"
                           | .error _ => none }

/-- Formatting of one feed headline (line 112–113): the first entry's title
with newlines replaced by spaces, stripped, and bulleted. -/
def fmtTitle (title : String) : String :=
  "• " ++ pyStrip (pyReplaceNl title)

/-- The `for url in feeds` loop body of `fetch_security_feeds` viewed through
its enclosing `try`: each element of `results` is one feed's parse outcome
(`.ok entries` = the list of entry titles, `.error e` = an exception raised
while handling that feed).  The loop collects the first title of every feed;
the first exception aborts the whole collection. -/
def feedsCollect : List (Except String (List String)) → Except String (List String)
  | [] => .ok []
  | .error e :: _ => .error e
  | .ok entries :: rest =>
    match feedsCollect rest with
    | .error e => .error e
    | .ok items => .ok ((entries.take 1).map fmtTitle ++ items)

/-- `fetch_security_feeds` (lines 101–118).  On an exception the item list is
replaced by the single `"Feed error: ..."` line; an empty collection becomes
the single `"No new security updates."` line; and `items[:3]` caps the result
at 3 lines. -/
def fetch_security_feeds (results : List (Except String (List String))) : List String :=
  (match feedsCollect results with
   | .error e => ["Feed error: " ++ e]
   | .ok items => if items = [] then ["No new security updates."] else items).take 3

/-- Layout constants of `draw_dashboard` (lines 210–215). -/
def PADDING : Int := 40

def DIVIDER_X : Int := 900

def CARD_SPACING : Int := 25

def CARD_RADIUS : Int := 20

def CARD_FILL : Int := 240

def CARD_OUTLINE : Int := 180

/-- The abstract state of the icon image inside `draw_icon_with_text`: its
grayscale pixel values (0–255). -/
abbrev IconPixels := List Nat

/-- Outcomes of the image-library calls made by `draw_icon_with_text`
(lines 123–144).  `loadRes` is the result of `Image.open ∘ convert("RGBA")`,
flattening over white, and `convert("L")` — i.e. the grayscale pixels, or the
exception raised anywhere in that part of the chain.  `contrastRes` and
`resizeRes` are the `ImageOps.autocontrast(·, cutoff=3)` and
`resize((40, 40))` library calls, `pasteRes` the `img.paste`. -/
structure IconEnv where
  loadRes : Except String IconPixels
  contrastRes : IconPixels → Except String IconPixels
  resizeRes : IconPixels → Except String IconPixels
  pasteRes : Except String Unit

/-- The icon-processing chain of `draw_icon_with_text` (lines 126–138):
load/flatten/grayscale, then invert when the mean brightness exceeds 180
(`sum / length > 180`, i.e. `180 * length < sum`), then contrast-stretch,
then resize. -/
def iconTransform (env : IconEnv) : Except String IconPixels := do
  let icon ← env.loadRes
  let icon := if 180 * icon.length < icon.sum then icon.map (fun v => 255 - v) else icon
  let icon ← env.contrastRes icon
  env.resizeRes icon

/-- `draw_icon_with_text` (lines 123–144): on success of the whole chain the
icon is pasted at `(x, y)` and the label drawn at `(x + 55, y + 6)`; any
exception is caught by the `except` clause, which draws the label alone at
`(x, y)`. -/
def draw_icon_with_text (env : IconEnv) (x y : Int) (label : String) : List DrawOp :=
  match (do let _ ← iconTransform env; env.pasteRes) with
  | .ok _ => [DrawOp.paste x y, DrawOp.text (x + 55) (y + 6) label 0]
  | .error _ => [DrawOp.text x y label 0]

/-- The day-number string `f"{day:2}"`: right-aligned in width 2. -/
def fmtDay (d : Nat) : String :=
  if d < 10 then " " ++ toString d else toString d

/-- Pixel x of the day cell drawn with column counter `c`
(line 183: `dx = left + (col_width * (col % 7)) + (col_width // 3)` with
`col_width = (w - 80) // 7`). -/
def calCellX (x w : Int) (c : Nat) : Int :=
  x + ((w - 80).fdiv 7) * ((c % 7 : Nat) : Int) + ((w - 80).fdiv 7).fdiv 3

/-- Pixel y of the day cell drawn with row counter `r`
(line 184: `dy = y_offset + (row * row_height)` with `y_offset = y + 70`,
`row_height = 32`). -/
def calCellY (y : Int) (r : Nat) : Int :=
  (y + 70) + (r : Int) * 32

/-- The `for day in month_days` loop of `draw_calendar` (lines 179–192),
carrying the `col` and `row` counters.  A zero advances `col` without
drawing; the current day gets a filled rectangle plus white text, any other
day black text; after drawing, `col` advances and `row` advances whenever
`col` has just become a multiple of 7. -/
def calLoop (x y w : Int) (today : Nat) : List Nat → Nat → Nat → List DrawOp
  | [], _, _ => []
  | day :: rest, col, row =>
    if day = 0 then
      calLoop x y w today rest (col + 1) row
    else
      let dx := calCellX x w col
      let dy := calCellY y row
      (if day = today then
        [DrawOp.rect (dx - 10) (dy - 3) (dx + 25) (dy + 25) 0,
         DrawOp.text dx dy (fmtDay day) 255]
       else
        [DrawOp.text dx dy (fmtDay day) 0]) ++
      calLoop x y w today rest (col + 1) (if (col + 1) % 7 = 0 then row + 1 else row)

/-- The day-number part of `draw_calendar` (lines 173–192): the loop started
with `col = 0`, `row = 0`. -/
def calendarDayOps (x y w : Int) (days : List Nat) (today : Nat) : List DrawOp :=
  calLoop x y w today days 0 0

/-- The day sequence `list(calendar.Calendar(firstweekday=0)
.itermonthdays(year, month))` (line 173–174): `lead` leading zeros (the
Monday-based weekday of the 1st), the days `1..n`, and trailing zeros
completing the last week. -/
def monthDays (lead n : Nat) : List Nat :=
  List.replicate lead 0 ++ List.range' 1 n ++ List.replicate ((7 - (lead + n) % 7) % 7) 0

/-- `draw_calendar` (lines 148–192): centered month name, weekday header row,
then the day numbers.  `tl` models `draw.textlength` under the given font. -/
def draw_calendar (tl : String → Int) (x y w : Int) (monthName : String)
    (days : List Nat) (today : Nat) : List DrawOp :=
  let width := w - 80
  let col_width := width.fdiv 7
  let month_x := x + (width - tl monthName).fdiv 2
  let weekdays := ["M", "T", "W", "T", "F", "S", "S"]
  let wdOps := weekdays.enum.map (fun p =>
    DrawOp.text (x + col_width * (p.1 : Int) + (col_width - tl p.2).fdiv 2) (y + 40) p.2 0)
  DrawOp.text month_x y monthName 0 :: wdOps ++ calendarDayOps x y w days today

/-- The drawing primitives emitted for one non-zero calendar entry processed
with column counter `c` and row counter `c / 7` (the value the row counter
provably has while day numbers are being drawn). -/
def calDayCellOps (x y w : Int) (today : Nat) (c d : Nat) : List DrawOp :=
  let dx := calCellX x w c
  let dy := calCellY y (c / 7)
  if d = today then
    [DrawOp.rect (dx - 10) (dy - 3) (dx + 25) (dy + 25) 0,
     DrawOp.text dx dy (fmtDay d) 255]
  else
    [DrawOp.text dx dy (fmtDay d) 0]

/-- Recognizes the `draw.rectangle` primitive (the highlight behind the
current day is the only plain rectangle the calendar loop draws). -/
def isRectOp : DrawOp → Bool
  | .rect .. => true
  | _ => false

/-- The string carried by a `text` primitive, if any. -/
def opText : DrawOp → Option String
  | .text _ _ s _ => some s
  | _ => none

/-- The weather header string: the formatted
`f"{temp}°C  {condition}  Hum {humidity}%"` when weather is present
(line 236), the fixed fallback `"Weather: N/A"` otherwise (line 248). -/
def headerWeatherText : Option Weather → String
  | some w => toString w.temp ++ "°C  " ++ w.condition ++ "  Hum " ++ toString w.humidity ++ "%"
  | none => "Weather: N/A"

/-- The battery header string `f"[BAT: {battery}%]"` (line 226). -/
def batteryText (battery : String) : String :=
  "[BAT: " ++ battery ++ "%]"

/-- The header section of `draw_dashboard` (lines 217–251).  A cursor
`right_x` starts at `WIDTH - 60`; the battery text is measured and drawn at
`right_x - batt_width`; then a 40-pixel gutter; then the weather text (or the
fallback string) is measured and drawn at the decremented cursor; a present
weather icon is pasted 50 pixels further left. -/
def headerOps (tl : String → Int) (left_text battery : String)
    (weather : Option Weather) (iconExists : Bool) : List DrawOp :=
  let bg := DrawOp.rect 0 0 WIDTH 100 235
  let leftOp := DrawOp.text PADDING 30 left_text 0
  let right_x : Int := WIDTH - 60
  let batt_width := tl (batteryText battery)
  let right_x := right_x - batt_width
  let battOp := DrawOp.text right_x 34 (batteryText battery) 0
  let right_x := right_x - 40
  match weather with
  | some w =>
    let weather_text := headerWeatherText (some w)
    let right_x := right_x - tl weather_text
    let wOp := DrawOp.text right_x 34 weather_text 0
    if iconExists then
      [bg, leftOp, battOp, wOp, DrawOp.paste (right_x - 50) 27]
    else
      [bg, leftOp, battOp, wOp]
  | none =>
    let weather_text := "Weather: N/A"
    let right_x := right_x - tl weather_text
    [bg, leftOp, battOp, DrawOp.text right_x 34 weather_text 0]

/-- The `" (date)"` suffix appended to a task line when the task has a due
date (lines 268–270). -/
def dueSuffix (t : Task) : String :=
  match t.due with
  | some d => " (" ++ d ++ ")"
  | none => ""

/-- The task-line loop of the Todoist card (lines 264–272), over the tasks it
is given: a task whose stripped content is empty is skipped without advancing
`y`; otherwise `f"• {c[:60]}{due}"` is drawn and `y` advances by 30. -/
def todoTaskOps : List Task → Int → List DrawOp
  | [], _ => []
  | t :: rest, y =>
    let c := pyStrip t.content
    if c = "" then todoTaskOps rest y
    else
      DrawOp.text (PADDING + 50) y ("• " ++ pySlice c 60 ++ dueSuffix t) 0 ::
        todoTaskOps rest (y + 30)

/-- The item lines of the Todoist card: the loop runs over `tasks[:6]`
(line 264). -/
def todoCardItemOps (tasks : List Task) (y : Int) : List DrawOp :=
  todoTaskOps (tasks.take 6) y

/-- The item-line loop of the Completed card (lines 284–289): a completed
item whose stripped content is empty is skipped; otherwise `f"☑ {c[:55]}"`
is drawn with fill 100 and `y` advances by 28. -/
def completedItemOps : List CompletedItem → Int → List DrawOp
  | [], _ => []
  | t :: rest, y =>
    let c := pyStrip t.content
    if c = "" then completedItemOps rest y
    else
      DrawOp.text (PADDING + 50) y ("☑ " ++ pySlice c 55) 100 ::
        completedItemOps rest (y + 28)

/-- The line loop of the Security-Feeds card (lines 300–302): each line is
drawn truncated to 85 characters, `y` advancing by 28. -/
def feedLineOps : List String → Int → List DrawOp
  | [], _ => []
  | s :: rest, y =>
    DrawOp.text (PADDING + 50) y (pySlice s 85) 0 :: feedLineOps rest (y + 28)

/-- The vertical extents of the three left-column cards. -/
structure LeftColumnLayout where
  todoTop : Int
  todoBottom : Int
  compTop : Int
  compBottom : Int
  feedsTop : Int
  feedsBottom : Int
  deriving DecidableEq, Repr

/-- The card-stacking arithmetic of `draw_dashboard` (lines 255–295),
threading `current_y` exactly as the script does: the Todoist card is fixed
(top 130, height 250); the Completed card's height is
`120 + len(done) * 30`; the Feeds card is fixed at height 180; each card's
top is the previous card's bottom plus `CARD_SPACING`. -/
def leftColumnLayout (nDone : Nat) : LeftColumnLayout :=
  let current_y : Int := 130
  let todo_top := current_y
  let todo_bottom := todo_top + 250
  let current_y := todo_bottom + CARD_SPACING
  let card_height : Int := 120 + (nDone : Int) * 30
  let comp_top := current_y
  let comp_bottom := comp_top + card_height
  let current_y := comp_bottom + CARD_SPACING
  let feeds_top := current_y
  let feeds_bottom := feeds_top + 180
  ⟨todo_top, todo_bottom, comp_top, comp_bottom, feeds_top, feeds_bottom⟩

/-- All inputs of `draw_dashboard` plus the ambient data it formats itself
(the date/time header string, the footer string, and the current month for
the calendar). -/
structure DashboardInput where
  tl : String → Int
  left_text : String
  tasks : List Task
  done : List CompletedItem
  battery : String
  weather : Option Weather
  weatherIconExists : Bool
  feeds : List String
  monthName : String
  days : List Nat
  today : Nat
  footer_text : String

/-- `draw_dashboard` (lines 198–324) as the sequence of drawing primitives it
issues: header, the three stacked left-column cards, the divider and calendar
card, and the footer. -/
def draw_dashboard (inp : DashboardInput) : List DrawOp :=
  let L := leftColumnLayout inp.done.length
  headerOps inp.tl inp.left_text inp.battery inp.weather inp.weatherIconExists ++
  [DrawOp.rrect PADDING L.todoTop (DIVIDER_X - 60) L.todoBottom CARD_RADIUS CARD_FILL CARD_OUTLINE,
   DrawOp.iconCall (PADDING + 30) (L.todoTop + 20) "Todo List"] ++
  todoCardItemOps inp.tasks (L.todoTop + 70) ++
  [DrawOp.rrect PADDING L.compTop (DIVIDER_X - 60) L.compBottom CARD_RADIUS CARD_FILL CARD_OUTLINE,
   DrawOp.iconCall (PADDING + 30) (L.compTop + 20) "Completed (Latest 5)"] ++
  completedItemOps inp.done (L.compTop + 70) ++
  [DrawOp.rrect PADDING L.feedsTop (DIVIDER_X - 60) L.feedsBottom CARD_RADIUS CARD_FILL CARD_OUTLINE,
   DrawOp.iconCall (PADDING + 30) (L.feedsTop + 20) "Security Feeds"] ++
  feedLineOps inp.feeds (L.feedsTop + 70) ++
  [DrawOp.line DIVIDER_X 110 DIVIDER_X (HEIGHT - 60) 180 2,
   DrawOp.rrect (DIVIDER_X + 30) 130 (WIDTH - 40) 450 CARD_RADIUS CARD_FILL CARD_OUTLINE,
   DrawOp.iconCall (DIVIDER_X + 60) 150 "Calendar"] ++
  draw_calendar inp.tl (DIVIDER_X + 60) 200 (WIDTH - (DIVIDER_X + 60))
    inp.monthName inp.days inp.today ++
  [DrawOp.line PADDING (HEIGHT - 60) (WIDTH - PADDING) (HEIGHT - 60) 180 1,
   DrawOp.text PADDING (HEIGHT - 45) inp.footer_text 0]

/-! ### Supporting lemmas -/

theorem feedsCollect_ok_eq :
    ∀ (results : List (Except String (List String))) (items : List String),
      feedsCollect results = .ok items →
      items = results.flatMap (fun r =>
        match r with
        | .ok es => (es.take 1).map fmtTitle
        | .error _ => []) := by
  intro results
  induction results with
  | nil =>
    intro items h
    simp only [feedsCollect, Except.ok.injEq] at h
    simp [← h]
  | cons r rest ih =>
    intro items h
    match r with
    | .error e => simp [feedsCollect] at h
    | .ok es =>
      rw [feedsCollect] at h
      cases hr : feedsCollect rest with
      | error e => rw [hr] at h; simp at h
      | ok its =>
        rw [hr] at h
        simp only [Except.ok.injEq] at h
        rw [← h, ih its hr]
        simp

theorem todoTaskOps_texts :
    ∀ (l : List Task) (y : Int),
      (todoTaskOps l y).filterMap opText =
        (l.filter (fun t => pyStrip t.content ≠ "")).map
          (fun t => "• " ++ pySlice (pyStrip t.content) 60 ++ dueSuffix t) := by
  intro l
  induction l with
  | nil => intro y; rfl
  | cons t rest ih =>
    intro y
    by_cases hc : pyStrip t.content = ""
    · simp [todoTaskOps, hc, ih y]
    · simp [todoTaskOps, hc, opText, ih (y + 30)]

theorem todoTaskOps_length :
    ∀ (l : List Task) (y : Int), (todoTaskOps l y).length ≤ l.length := by
  intro l
  induction l with
  | nil => intro y; simp [todoTaskOps]
  | cons t rest ih =>
    intro y
    by_cases hc : pyStrip t.content = ""
    · have h := ih y
      simp only [todoTaskOps, hc, if_true, List.length_cons]
      simp [hc]
      omega
    · have h := ih (y + 30)
      simp [todoTaskOps, hc]
      omega

theorem completedItemOps_texts :
    ∀ (l : List CompletedItem) (y : Int),
      (completedItemOps l y).filterMap opText =
        (l.filter (fun t => pyStrip t.content ≠ "")).map
          (fun t => "☑ " ++ pySlice (pyStrip t.content) 55) := by
  intro l
  induction l with
  | nil => intro y; rfl
  | cons t rest ih =>
    intro y
    by_cases hc : pyStrip t.content = ""
    · simp [completedItemOps, hc, ih y]
    · simp [completedItemOps, hc, opText, ih (y + 28)]

theorem completedItemOps_content_only :
    ∀ (l : List CompletedItem) (f : CompletedItem → Option String) (y : Int),
      completedItemOps (l.map (fun t => ⟨t.content, f t⟩)) y = completedItemOps l y := by
  intro l
  induction l with
  | nil => intro f y; rfl
  | cons t rest ih =>
    intro f y
    by_cases hc : pyStrip t.content = ""
    · simp [completedItemOps, hc, ih f y]
    · simp [completedItemOps, hc, ih f (y + 28)]

/-! ### Claim theorems -/

/-- C2: in the right-to-left header packing, with battery text width
`B = tl (batteryText battery)` and weather text width
`Wd = tl (headerWeatherText weather)`, the weather text is drawn with left
x-coordinate `WIDTH - 60 - B - 40 - Wd` (canvas width minus right margin 60
minus B minus the 40-pixel gutter minus Wd) — for present and absent weather
alike — and the battery text is drawn at `WIDTH - 60 - B`, so its right edge
`WIDTH - 60` is independent of the weather input. -/
theorem C2_header_packing (tl : String → Int) (left_text battery : String)
    (weather : Option Weather) (iconExists : Bool) :
    DrawOp.text (WIDTH - 60 - tl (batteryText battery)) 34 (batteryText battery) 0 ∈
      headerOps tl left_text battery weather iconExists ∧
    DrawOp.text (WIDTH - 60 - tl (batteryText battery) - 40 - tl (headerWeatherText weather))
      34 (headerWeatherText weather) 0 ∈ headerOps tl left_text battery weather iconExists ∧
    WIDTH - 60 - tl (batteryText battery) + tl (batteryText battery) = WIDTH - 60 := by
  refine ⟨?_, ?_, by ring⟩ <;>
    cases weather <;> cases iconExists <;> simp [headerOps, headerWeatherText]

/-- C5: whenever the weather response has a non-success HTTP status or its
JSON body lacks the `"current"` field, `fetch_weather` returns `none` and the
header renders the fixed fallback string `"Weather: N/A"`. -/
theorem C5_weather_fallback (k : String) (r : WeatherResp) (iconDl : Except String Unit)
    (tl : String → Int) (left_text battery : String) (iconExists : Bool)
    (h : r.status ≠ 200 ∨ ∀ j, r.body = Except.ok j → j.current = none) :
    fetch_weather (some k) (.ok r) iconDl = none ∧
    headerWeatherText (fetch_weather (some k) (.ok r) iconDl) = "Weather: N/A" ∧
    DrawOp.text (WIDTH - 60 - tl (batteryText battery) - 40 - tl "Weather: N/A") 34
      "Weather: N/A" 0 ∈
      headerOps tl left_text battery (fetch_weather (some k) (.ok r) iconDl) iconExists := by
  have hnone : fetch_weather (some k) (.ok r) iconDl = none := by
    rcases h with h | h
    · simp [fetch_weather, h]
    · simp only [fetch_weather]
      split
      · rfl
      · cases hb : r.body with
        | error e => rfl
        | ok j => simp [h j hb]
  refine ⟨hnone, by rw [hnone]; rfl, ?_⟩
  rw [hnone]
  simp [headerOps]

/-- C5 witness: a concrete HTTP-500 response yields `none` and the
`"Weather: N/A"` header string. -/
theorem C5_weather_fallback_witness :
    fetch_weather (some "key") (.ok ⟨500, .error "not json"⟩) (.ok ()) = none ∧
    headerWeatherText (fetch_weather (some "key") (.ok ⟨500, .error "not json"⟩) (.ok ())) =
      "Weather: N/A" :=
  ⟨(C5_weather_fallback "key" ⟨500, .error "not json"⟩ (.ok ())
      (fun s => s.length) "" "42" false (Or.inl (by decide))).1,
   (C5_weather_fallback "key" ⟨500, .error "not json"⟩ (.ok ())
      (fun s => s.length) "" "42" false (Or.inl (by decide))).2.1⟩

/-- C6: any exception in the battery read makes `fetch_battery` return the
sentinel `"N/A"`; the exception never propagates (the function is total and
returns a plain string on every input). -/
theorem C6_battery_sentinel (e : String) : fetch_battery (.error e) = "N/A" := rfl

/-- C7: `fetch_security_feeds` returns at most 3 lines; an exception while
iterating the feeds yields exactly the single `"Feed error: ..."` line; and
in the exception-free case the collected lines are the first entry's title of
each feed — at most one per source. -/
theorem C7_feed_limits (results : List (Except String (List String))) :
    (fetch_security_feeds results).length ≤ 3 ∧
    (∀ e, feedsCollect results = .error e →
      fetch_security_feeds results = ["Feed error: " ++ e]) ∧
    (∀ items, feedsCollect results = .ok items →
      items = results.flatMap (fun r =>
        match r with
        | .ok es => (es.take 1).map fmtTitle
        | .error _ => [])) := by
  refine ⟨?_, ?_, ?_⟩
  · unfold fetch_security_feeds
    exact List.length_take_le _ _
  · intro e he
    unfold fetch_security_feeds
    rw [he]
    rfl
  · intro items hi
    exact feedsCollect_ok_eq results items hi

/-- C7 witness: one feed raising aborts the collection into the single
placeholder line, and the cap of 3 holds. -/
theorem C7_feed_limits_witness :
    (fetch_security_feeds [.ok ["headline one"], .error "boom"]).length ≤ 3 ∧
    fetch_security_feeds [.ok ["headline one"], .error "boom"] =
      ["Feed error: " ++ "boom"] :=
  ⟨(C7_feed_limits [.ok ["headline one"], .error "boom"]).1,
   (C7_feed_limits [.ok ["headline one"], .error "boom"]).2.1 "boom" rfl⟩

/-- C8: the completed card's height is `120 + 30 ·` (number of completed
items), each left-column card's top is the previous card's bottom plus the
fixed spacing 25, and a longer completed list shifts the feeds card downward
by exactly 30 pixels per item. -/
theorem C8_card_stacking (n : Nat) :
    (leftColumnLayout n).compBottom - (leftColumnLayout n).compTop = 120 + 30 * (n : Int) ∧
    (leftColumnLayout n).compTop = (leftColumnLayout n).todoBottom + 25 ∧
    (leftColumnLayout n).feedsTop = (leftColumnLayout n).compBottom + 25 ∧
    (leftColumnLayout n).feedsTop = (leftColumnLayout 0).feedsTop + 30 * (n : Int) := by
  refine ⟨?_, ?_, ?_, ?_⟩ <;> simp [leftColumnLayout, CARD_SPACING] <;> ring

/-- C9: a failure anywhere in the icon chain — the load/flatten/grayscale
part, the contrast stretch, the resize, or the paste — makes
`draw_icon_with_text` draw the label text alone at the call's `(x, y)`
coordinates; no exception escapes. -/
theorem C9_icon_fallback (env : IconEnv) (x y : Int) (label : String)
    (h : (∃ e, iconTransform env = .error e) ∨ ∃ e, env.pasteRes = .error e) :
    draw_icon_with_text env x y label = [DrawOp.text x y label 0] := by
  unfold draw_icon_with_text
  rcases h with ⟨e, he⟩ | ⟨e, he⟩
  · rw [he]
    rfl
  · cases ht : iconTransform env with
    | error a => rfl
    | ok a => rw [he]; rfl

/-- C9 witness: a missing icon file (load failure) falls back to the label
text at `(x, y)`. -/
theorem C9_icon_fallback_witness :
    draw_icon_with_text
      ⟨.error "No such file", fun p => .ok p, fun p => .ok p, .ok ()⟩ 70 150 "Todo List" =
      [DrawOp.text 70 150 "Todo List" 0] :=
  C9_icon_fallback ⟨.error "No such file", fun p => .ok p, fun p => .ok p, .ok ()⟩
    70 150 "Todo List" (Or.inl ⟨"No such file", rfl⟩)

/-- C10: the todo card renders only tasks among the first 6 (taking more
tasks changes nothing), renders at most 6 lines, skips tasks whose content is
empty after trimming, and truncates each rendered content to its first 60
characters. -/
theorem C10_todo_card (tasks : List Task) (y : Int) :
    todoCardItemOps tasks y = todoCardItemOps (tasks.take 6) y ∧
    (todoCardItemOps tasks y).length ≤ 6 ∧
    (todoCardItemOps tasks y).filterMap opText =
      ((tasks.take 6).filter (fun t => pyStrip t.content ≠ "")).map
        (fun t => "• " ++ pySlice (pyStrip t.content) 60 ++ dueSuffix t) := by
  refine ⟨?_, ?_, ?_⟩
  · simp [todoCardItemOps, List.take_take]
  · exact le_trans (todoTaskOps_length _ _) (List.length_take_le _ _)
  · exact todoTaskOps_texts _ _

/-- C3 counterexample: a completed entry lacking a completion timestamp
(`completed_at = none`) with non-empty content IS rendered by the completed
card loop, contradicting the claim that such entries are never rendered. -/
theorem C3_counterexample :
    completedItemOps [{ content := "Old task", completed_at := none }] 475 =
      [DrawOp.text 90 475 "☑ Old task" 100] ∧
    completedItemOps [{ content := "Old task", completed_at := none }] 475 ≠ [] := by
  constructor
  · decide
  · decide

/-- C3 amended: the completed card excludes only entries with empty trimmed
content; completion timestamps are never read (rendering is invariant under
arbitrary rewriting of every `completed_at` field), and the collector's only
trimming of the completed list is `done[:5]`. -/
theorem C3_amended_no_time_filter (done : List CompletedItem) (y : Int) :
    (completedItemOps done y).filterMap opText =
      (done.filter (fun t => pyStrip t.content ≠ "")).map
        (fun t => "☑ " ++ pySlice (pyStrip t.content) 55) ∧
    (∀ f : CompletedItem → Option String,
      completedItemOps (done.map (fun t => ⟨t.content, f t⟩)) y = completedItemOps done y) ∧
    (∀ (tok : String) (tasks : List Task) (raw : List CompletedItem),
      fetch_todoist (some tok) (.ok tasks) (.ok raw) = .ok tasks (raw.take 5)) := by
  refine ⟨completedItemOps_texts done y, fun f => completedItemOps_content_only done f y,
    fun tok tasks raw => rfl⟩

/-- C4 counterexample: with the credential present, a raised request error
propagates out of `fetch_todoist` (there is no try/except), which is neither
a normal return nor the explicit termination the claim allows. -/
theorem C4_counterexample :
    fetch_todoist (some "token") (.error "ReadTimeout") (.ok []) = .raised "ReadTimeout" ∧
    TodoistResult.raised "ReadTimeout" ≠ .exited 1 := by
  constructor
  · rfl
  · decide

/-- C4 amended: the battery, weather and feed collectors never raise past
their boundary (they return their documented fallbacks), and
`fetch_todoist` exits the process with code 1 when the credential is absent —
explicit termination happens in that case only — but `fetch_todoist` also
propagates any exception raised by its two requests, so the task collector is
not raise-free beyond the missing-credential exit. -/
theorem C4_amended_collector_contracts :
    (∀ tr dr, fetch_todoist none tr dr = .exited 1) ∧
    (∀ tok e dr, fetch_todoist (some tok) (.error e) dr = .raised e) ∧
    (∀ tok ts e, fetch_todoist (some tok) (.ok ts) (.error e) = .raised e) ∧
    (∀ tok tr dr c, fetch_todoist tok tr dr = .exited c → tok = none ∧ c = 1) ∧
    (∀ e, fetch_battery (.error e) = "N/A") ∧
    (∀ k e ic, fetch_weather k (.error e) ic = none) ∧
    (∀ rs e, feedsCollect rs = .error e →
      fetch_security_feeds rs = ["Feed error: " ++ e]) := by
  refine ⟨fun tr dr => rfl, fun tok e dr => rfl, fun tok ts e => rfl, ?_, fun e => rfl,
    ?_, ?_⟩
  · intro tok tr dr c h
    match tok with
    | none =>
      refine ⟨rfl, ?_⟩
      have h1 : TodoistResult.exited 1 = TodoistResult.exited c := h
      injection h1 with h2
      exact h2.symm
    | some t =>
      exfalso
      match tr with
      | .error e => simp [fetch_todoist] at h
      | .ok ts =>
        match dr with
        | .error e => simp [fetch_todoist] at h
        | .ok ds => simp [fetch_todoist] at h
  · intro k e ic
    cases k <;> rfl
  · intro rs e h
    unfold fetch_security_feeds
    rw [h]
    rfl

/-- C4 witness: the explicit-termination case at a concrete input, and a
concrete feed failure collapsing to the placeholder line. -/
theorem C4_amended_collector_contracts_witness :
    ((none : Option String) = none ∧ 1 = 1) ∧
    fetch_security_feeds [.error "boom"] = ["Feed error: " ++ "boom"] :=
  ⟨C4_amended_collector_contracts.2.2.2.1 none (.ok []) (.ok []) 1 rfl,
   C4_amended_collector_contracts.2.2.2.2.2.2 [.error "boom"] "boom" rfl⟩

/-! ### Calendar-grid lemmas (for C1) -/

theorem flatMap_congr_mem {α β : Type _} (l : List α) (f g : α → List β)
    (h : ∀ a ∈ l, f a = g a) : l.flatMap f = l.flatMap g := by
  induction l with
  | nil => rfl
  | cons b l ih =>
    simp only [List.flatMap_cons]
    rw [h b (by simp), ih (fun a ha => h a (by simp [ha]))]

theorem calLoop_replicate_append (x y w : Int) (today : Nat) :
    ∀ (k : Nat) (ds : List Nat) (c r : Nat),
      calLoop x y w today (List.replicate k 0 ++ ds) c r =
        calLoop x y w today ds (c + k) r := by
  intro k
  induction k with
  | zero => intro ds c r; simp
  | succ k ih =>
    intro ds c r
    rw [List.replicate_succ, List.cons_append]
    have h0 : calLoop x y w today (0 :: (List.replicate k 0 ++ ds)) c r =
        calLoop x y w today (List.replicate k 0 ++ ds) (c + 1) r := by
      simp [calLoop]
    rw [h0, ih]
    have e : c + 1 + k = c + (k + 1) := by omega
    rw [e]

theorem calLoop_run (x y w : Int) (today : Nat) :
    ∀ (m a c k : Nat), 1 ≤ a →
      calLoop x y w today (List.range' a m ++ List.replicate k 0) c (c / 7) =
        (List.range' a m).flatMap
          (fun d => calDayCellOps x y w today (c + (d - a)) d) := by
  intro m
  induction m with
  | zero =>
    intro a c k ha
    have hr : List.range' a 0 = ([] : List Nat) := rfl
    rw [hr, List.nil_append, List.flatMap_nil]
    have h := calLoop_replicate_append x y w today k [] c (c / 7)
    simpa using h
  | succ m ih =>
    intro a c k ha
    have hne : ¬ (a = 0) := by omega
    have hrow : (if (c + 1) % 7 = 0 then c / 7 + 1 else c / 7) = (c + 1) / 7 := by
      rw [Nat.succ_div]
      by_cases h7 : (c + 1) % 7 = 0
      · rw [if_pos h7, if_pos (by omega)]
      · rw [if_neg h7, if_neg (by omega), Nat.add_zero]
    rw [List.range'_succ, List.cons_append, List.flatMap_cons]
    have step : calLoop x y w today
        (a :: (List.range' (a + 1) m ++ List.replicate k 0)) c (c / 7) =
        calDayCellOps x y w today c a ++
          calLoop x y w today (List.range' (a + 1) m ++ List.replicate k 0)
            (c + 1) ((c + 1) / 7) := by
      simp only [calLoop, calDayCellOps, hne, if_false, hrow]
    rw [step, ih (a + 1) (c + 1) k (by omega)]
    congr 1
    · have e : a - a = 0 := by omega
      rw [e, Nat.add_zero]
    · refine flatMap_congr_mem _ _ _ (fun d hd => ?_)
      have hda : a + 1 ≤ d := (List.mem_range'_1.mp hd).1
      have e : c + 1 + (d - (a + 1)) = c + (d - a) := by omega
      rw [e]

theorem calendarDayOps_monthDays (x y w : Int) (lead n today : Nat) (hlead : lead < 7) :
    calendarDayOps x y w (monthDays lead n) today =
      (List.range' 1 n).flatMap
        (fun d => calDayCellOps x y w today (lead + (d - 1)) d) := by
  unfold calendarDayOps monthDays
  rw [List.append_assoc, calLoop_replicate_append]
  have h0 : (0 : Nat) + lead = lead := by omega
  rw [h0]
  have hdiv : lead / 7 = 0 := Nat.div_eq_of_lt hlead
  have h := calLoop_run x y w today n 1 lead ((7 - (lead + n) % 7) % 7) (by omega)
  rw [hdiv] at h
  exact h

theorem count_flatMap_eq {α β : Type _} [DecidableEq β] :
    ∀ (l : List α) (f : α → List β) (b : β),
      (l.flatMap f).count b = (l.map (fun a => (f a).count b)).sum := by
  intro l f b
  induction l with
  | nil => rfl
  | cons a l ih => simp [List.flatMap_cons, List.count_append, ih]

theorem length_flatMap_eq {α β : Type _} :
    ∀ (l : List α) (f : α → List β),
      (l.flatMap f).length = (l.map (fun a => (f a).length)).sum := by
  intro l f
  induction l with
  | nil => rfl
  | cons a l ih => simp [List.flatMap_cons, ih]

theorem sum_map_ite_one (a : Nat) :
    ∀ (l : List Nat), (l.map (fun d => if d = a then (1 : Nat) else 0)).sum = l.count a := by
  intro l
  induction l with
  | nil => rfl
  | cons b l ih =>
    simp only [List.map_cons, List.sum_cons, ih, List.count_cons]
    by_cases h : b = a
    · simp [h]
      omega
    · simp [h]

theorem sum_map_ite_two (a : Nat) :
    ∀ (l : List Nat),
      (l.map (fun d => if d = a then (2 : Nat) else 1)).sum = l.length + l.count a := by
  intro l
  induction l with
  | nil => rfl
  | cons b l ih =>
    simp only [List.map_cons, List.sum_cons, ih, List.count_cons, List.length_cons]
    by_cases h : b = a <;> simp [h] <;> omega

theorem flatMap_ite_singleton {β : Type _} :
    ∀ (l : List Nat) (a : Nat) (g : Nat → List β), l.Nodup → a ∈ l →
      (l.flatMap fun d => if d = a then g d else []) = g a := by
  intro l a g hnd hmem
  induction l with
  | nil => cases hmem
  | cons b l ih =>
    rw [List.flatMap_cons]
    rcases List.nodup_cons.mp hnd with ⟨hb, hnd2⟩
    by_cases hba : b = a
    · subst hba
      rw [if_pos rfl]
      have hz : (l.flatMap fun d => if d = b then g d else []) = [] := by
        refine List.flatMap_eq_nil_iff.mpr (fun d hd => ?_)
        have hdb : d ≠ b := fun he => hb (by rw [← he]; exact hd)
        rw [if_neg hdb]
      rw [hz, List.append_nil]
    · rw [if_neg hba, List.nil_append]
      refine ih hnd2 ?_
      rcases List.mem_cons.mp hmem with h | h
      · exact absurd h.symm hba
      · exact h

theorem filter_calDayCellOps (x y w : Int) (today c d : Nat) :
    (calDayCellOps x y w today c d).filter isRectOp =
      if d = today then
        [DrawOp.rect (calCellX x w c - 10) (calCellY y (c / 7) - 3)
          (calCellX x w c + 25) (calCellY y (c / 7) + 25) 0]
      else [] := by
  by_cases h : d = today <;> simp [calDayCellOps, h, isRectOp]

theorem length_calDayCellOps (x y w : Int) (today c d : Nat) :
    (calDayCellOps x y w today c d).length = if d = today then 2 else 1 := by
  by_cases h : d = today <;> simp [calDayCellOps, h]

theorem fmtDay_inj : ∀ d, d < 32 → ∀ e, e < 32 → fmtDay d = fmtDay e → d = e := by decide

theorem monthDays_length (lead n : Nat) :
    (monthDays lead n).length = lead + n + (7 - (lead + n) % 7) % 7 := by
  simp [monthDays]
  omega

theorem monthDays_getElem? (lead n i : Nat) :
    (monthDays lead n)[i]? =
      if i < lead then some 0
      else if i < lead + n then some (i - lead + 1)
      else if i < lead + n + (7 - (lead + n) % 7) % 7 then some 0
      else none := by
  unfold monthDays
  rw [List.append_assoc]
  simp only [List.getElem?_append, List.length_replicate, List.length_range',
    List.getElem?_replicate]
  by_cases h1 : i < lead
  · simp [h1]
  · by_cases h2 : i < lead + n
    · have hlt : i - lead < n := by omega
      simp only [if_neg h1, if_pos h2, if_pos hlt, List.getElem?_range' 1 1 hlt]
      congr 1
      omega
    · have hge : ¬ (i - lead < n) := by omega
      by_cases h3 : i - lead - n < (7 - (lead + n) % 7) % 7
      · have h3h : i < lead + n + (7 - (lead + n) % 7) % 7 := by omega
        simp [h1, h2, hge, h3, h3h]
      · have h3h : ¬ i < lead + n + (7 - (lead + n) % 7) % 7 := by omega
        simp [h1, h2, hge, h3, h3h]

theorem monthDays_get (lead n i : Nat) (h : i < (monthDays lead n).length)
    (hne : (monthDays lead n).get ⟨i, h⟩ ≠ 0) :
    lead ≤ i ∧ i < lead + n ∧ (monthDays lead n).get ⟨i, h⟩ = i - lead + 1 := by
  have hq : (monthDays lead n)[i]? = some ((monthDays lead n).get ⟨i, h⟩) := by
    rw [List.getElem?_eq_getElem h]
    simp
  rw [monthDays_getElem? lead n i] at hq
  by_cases h1 : i < lead
  · rw [if_pos h1] at hq
    injection hq with hq
    exact absurd hq.symm hne
  · rw [if_neg h1] at hq
    by_cases h2 : i < lead + n
    · rw [if_pos h2] at hq
      injection hq with hq
      exact ⟨Nat.le_of_not_lt h1, h2, hq.symm⟩
    · rw [if_neg h2] at hq
      by_cases h3 : i < lead + n + (7 - (lead + n) % 7) % 7
      · rw [if_pos h3] at hq
        injection hq with hq
        exact absurd hq.symm hne
      · rw [if_neg h3] at hq
        cases hq

/-- C1: for the day sequence `monthDays lead n` of a month (`lead < 7`
leading padding zeros — the Monday-based weekday of the 1st — days `1..n`
with `n ≤ 31`, trailing zeros completing the week) whose current day of month
is `today ∈ 1..n`, the day-number loop of `draw_calendar` (lines 173–192):
(1) draws exactly one highlighted inverted rectangle, namely at the cell of
the entry whose value is `today`, i.e. at grid index `lead + today - 1`;
(2) draws every non-zero entry exactly once, at the pixel position computed
from its index `i` in the sequence in row-major 7-column order — `calCellX`
places it in column `i % 7` and `calCellY` in row `i / 7` — with inverted
fill exactly for the current day; and
(3) draws nothing else: `n` day texts plus the single highlight rectangle. -/
theorem C1_calendar_grid (x y w : Int) (lead n today : Nat)
    (hlead : lead < 7) (hn : n ≤ 31) (h1 : 1 ≤ today) (h2 : today ≤ n) :
    ((calendarDayOps x y w (monthDays lead n) today).filter isRectOp =
      [DrawOp.rect (calCellX x w (lead + today - 1) - 10)
        (calCellY y ((lead + today - 1) / 7) - 3)
        (calCellX x w (lead + today - 1) + 25)
        (calCellY y ((lead + today - 1) / 7) + 25) 0]) ∧
    (∀ (i : Nat) (hi : i < (monthDays lead n).length),
      (monthDays lead n).get ⟨i, hi⟩ ≠ 0 →
      (calendarDayOps x y w (monthDays lead n) today).count
        (DrawOp.text (calCellX x w i) (calCellY y (i / 7))
          (fmtDay ((monthDays lead n).get ⟨i, hi⟩))
          (if (monthDays lead n).get ⟨i, hi⟩ = today then 255 else 0)) = 1) ∧
    (calendarDayOps x y w (monthDays lead n) today).length = n + 1 := by
  have hchar := calendarDayOps_monthDays x y w lead n today hlead
  have htodaymem : today ∈ List.range' 1 n := List.mem_range'_1.mpr ⟨h1, by omega⟩
  have hnodup : (List.range' 1 n).Nodup := List.nodup_range' 1 n
  refine ⟨?_, ?_, ?_⟩
  · rw [hchar, List.filter_flatMap]
    rw [flatMap_congr_mem _ _
      (fun d => if d = today then
        [DrawOp.rect (calCellX x w (lead + (d - 1)) - 10)
          (calCellY y ((lead + (d - 1)) / 7) - 3)
          (calCellX x w (lead + (d - 1)) + 25)
          (calCellY y ((lead + (d - 1)) / 7) + 25) 0]
        else [])
      (fun d _ => filter_calDayCellOps x y w today (lead + (d - 1)) d)]
    rw [flatMap_ite_singleton _ _ _ hnodup htodaymem]
    have e : lead + (today - 1) = lead + today - 1 := by omega
    rw [e]
  · intro i hi hne
    obtain ⟨hle, hlt, hval⟩ := monthDays_get lead n i hi hne
    rw [hchar, count_flatMap_eq, hval]
    have hmap : (List.range' 1 n).map
        (fun dd => (calDayCellOps x y w today (lead + (dd - 1)) dd).count
          (DrawOp.text (calCellX x w i) (calCellY y (i / 7)) (fmtDay (i - lead + 1))
            (if i - lead + 1 = today then 255 else 0))) =
        (List.range' 1 n).map (fun dd => if dd = i - lead + 1 then 1 else 0) := by
      refine List.map_congr_left (fun dd hdd => ?_)
      obtain ⟨hdd1, hdd2⟩ := List.mem_range'_1.mp hdd
      by_cases hed : dd = i - lead + 1
      · rw [hed]
        have hieq : lead + (i - lead + 1 - 1) = i := by omega
        rw [hieq]
        by_cases ht : i - lead + 1 = today
        · simp [calDayCellOps, ht, List.count_cons]
        · simp [calDayCellOps, ht, List.count_cons]
      · have hfne : fmtDay dd ≠ fmtDay (i - lead + 1) := fun hEq =>
          hed (fmtDay_inj dd (by omega) (i - lead + 1) (by omega) hEq)
        rw [if_neg hed]
        by_cases ht : dd = today
        · subst ht
          simp [calDayCellOps, List.count_cons, hfne]
        · simp [calDayCellOps, ht, List.count_cons, hfne]
    rw [hmap, sum_map_ite_one]
    have hdm : i - lead + 1 ∈ List.range' 1 n := List.mem_range'_1.mpr ⟨by omega, by omega⟩
    exact List.count_eq_one_of_mem hnodup hdm
  · rw [hchar, length_flatMap_eq]
    rw [List.map_congr_left
      (fun d _ => length_calDayCellOps x y w today (lead + (d - 1)) d)]
    rw [sum_map_ite_two, List.length_range', List.count_eq_one_of_mem hnodup htodaymem]

/-- C1 witness: the concrete call geometry of the script
(`x = 960`, `y = 200`, `w = 488`) with a month starting 3 cells in,
31 days, current day 12. -/
theorem C1_calendar_grid_witness :
    (3 < 7 ∧ 31 ≤ 31 ∧ 1 ≤ 12 ∧ 12 ≤ 31) ∧
    (calendarDayOps 960 200 488 (monthDays 3 31) 12).length = 31 + 1 :=
  ⟨⟨by decide, by decide, by decide, by decide⟩,
   (C1_calendar_grid 960 200 488 3 31 12 (by decide) (by decide) (by decide)
      (by decide)).2.2⟩

end Kindleboard
